import Mathlib

set_option maxRecDepth 40000

/-
Verification development for the job-monitor program (src/job_monitor.py).

The definitions below are a shallow embedding of the Python source:
  * strings are Lean `String`s (the inputs we reason about are ASCII, where
    Python `str.lower` agrees with `Char.toLower`);
  * `hashlib.md5(...).hexdigest()` is embedded as an executable MD5 over the
    UTF-8 bytes of the input string;
  * the mutable `self.seen_jobs` set is threaded explicitly as a
    `Finset String`;
  * network I/O is modelled by passing the answers the network would give as
    explicit data (a per-site outcome, or a queue of HTTP answers);
  * `json.load` results are modelled by the inductive `JVal`.
-/

/-! ## Python string primitives -/

/-- Model of Python `str.lower()` (faithful on ASCII, which is all the
program's keywords and titles use). -/
def pyLower (s : String) : String :=
  String.mk (s.toList.map Char.toLower)

/-- Helper for the Python substring test: does `hay` start with `nd`? -/
def startsWith : List Char → List Char → Bool
  | _, [] => true
  | [], _ :: _ => false
  | h :: t, n :: ns => (h == n) && startsWith t ns

/-- Model of the Python membership test `nd in hay` on strings:
`nd` occurs as a contiguous substring of `hay`. -/
def containsSub : List Char → List Char → Bool
  | [], nd => startsWith [] nd
  | h :: t, nd => startsWith (h :: t) nd || containsSub t nd

/-! ## matches_keywords (src/job_monitor.py lines 63-66)

`text_lower = text.lower()`; return
`any(kw.lower() in text_lower for kw in keywords)`. -/

def matchesKeywords (text : String) (keywords : List String) : Bool :=
  let textLower := pyLower text
  keywords.any (fun kw => containsSub textLower.toList (pyLower kw).toList)

/-! ## MD5 (the `hashlib.md5(...).hexdigest()` call in generate_job_id)

Executable MD5 over a list of bytes, per RFC 1321.  `md5Table` lists the 64
rounds as `(selector of the round function, message index g, constant K, shift s)`. -/

def md5Mask : Nat := 4294967295

def rotl32 (x n : Nat) : Nat :=
  ((x <<< n) ||| (x >>> (32 - n))) &&& md5Mask

def md5F (fsel b c d : Nat) : Nat :=
  if fsel = 0 then (b &&& c) ||| ((md5Mask ^^^ b) &&& d)
  else if fsel = 1 then (d &&& b) ||| ((md5Mask ^^^ d) &&& c)
  else if fsel = 2 then b ^^^ c ^^^ d
  else c ^^^ (b ||| (md5Mask ^^^ d))

def md5Table : List (Nat × Nat × Nat × Nat) :=
  [(0, 0, 3614090360, 7),
  (0, 1, 3905402710, 12),
  (0, 2, 606105819, 17),
  (0, 3, 3250441966, 22),
  (0, 4, 4118548399, 7),
  (0, 5, 1200080426, 12),
  (0, 6, 2821735955, 17),
  (0, 7, 4249261313, 22),
  (0, 8, 1770035416, 7),
  (0, 9, 2336552879, 12),
  (0, 10, 4294925233, 17),
  (0, 11, 2304563134, 22),
  (0, 12, 1804603682, 7),
  (0, 13, 4254626195, 12),
  (0, 14, 2792965006, 17),
  (0, 15, 1236535329, 22),
  (1, 1, 4129170786, 5),
  (1, 6, 3225465664, 9),
  (1, 11, 643717713, 14),
  (1, 0, 3921069994, 20),
  (1, 5, 3593408605, 5),
  (1, 10, 38016083, 9),
  (1, 15, 3634488961, 14),
  (1, 4, 3889429448, 20),
  (1, 9, 568446438, 5),
  (1, 14, 3275163606, 9),
  (1, 3, 4107603335, 14),
  (1, 8, 1163531501, 20),
  (1, 13, 2850285829, 5),
  (1, 2, 4243563512, 9),
  (1, 7, 1735328473, 14),
  (1, 12, 2368359562, 20),
  (2, 5, 4294588738, 4),
  (2, 8, 2272392833, 11),
  (2, 11, 1839030562, 16),
  (2, 14, 4259657740, 23),
  (2, 1, 2763975236, 4),
  (2, 4, 1272893353, 11),
  (2, 7, 4139469664, 16),
  (2, 10, 3200236656, 23),
  (2, 13, 681279174, 4),
  (2, 0, 3936430074, 11),
  (2, 3, 3572445317, 16),
  (2, 6, 76029189, 23),
  (2, 9, 3654602809, 4),
  (2, 12, 3873151461, 11),
  (2, 15, 530742520, 16),
  (2, 2, 3299628645, 23),
  (3, 0, 4096336452, 6),
  (3, 7, 1126891415, 10),
  (3, 14, 2878612391, 15),
  (3, 5, 4237533241, 21),
  (3, 12, 1700485571, 6),
  (3, 3, 2399980690, 10),
  (3, 10, 4293915773, 15),
  (3, 1, 2240044497, 21),
  (3, 8, 1873313359, 6),
  (3, 15, 4264355552, 10),
  (3, 6, 2734768916, 15),
  (3, 13, 1309151649, 21),
  (3, 4, 4149444226, 6),
  (3, 11, 3174756917, 10),
  (3, 2, 718787259, 15),
  (3, 9, 3951481745, 21)]

/-- One MD5 round: `(a,b,c,d)` updated with table entry `(fsel, g, k, s)`
against the 16 message words `M`. -/
def md5Step (M : List Nat) (st : Nat × Nat × Nat × Nat)
    (e : Nat × Nat × Nat × Nat) : Nat × Nat × Nat × Nat :=
  let (a, b, c, d) := st
  let (fsel, g, k, s) := e
  let f := (md5F fsel b c d + a + k + M.getD g 0) &&& md5Mask
  (d, (b + rotl32 f s) &&& md5Mask, b, c)

/-- Fold the 64 rounds over one 16-word block and add the result back into
the chaining state. -/
def md5Block (st : Nat × Nat × Nat × Nat) (M : List Nat) :
    Nat × Nat × Nat × Nat :=
  let r := md5Table.foldl (md5Step M) st
  ((st.1 + r.1) &&& md5Mask, (st.2.1 + r.2.1) &&& md5Mask,
   (st.2.2.1 + r.2.2.1) &&& md5Mask, (st.2.2.2 + r.2.2.2) &&& md5Mask)

/-- Split a byte list into `n` chunks of 64 bytes. -/
def takeBlocks : Nat → List Nat → List (List Nat)
  | 0, _ => []
  | n + 1, l => l.take 64 :: takeBlocks n (l.drop 64)

/-- Group bytes into little-endian 32-bit words. -/
def leWords : List Nat → List Nat
  | b0 :: b1 :: b2 :: b3 :: rest =>
      (b0 + 256 * b1 + 65536 * b2 + 16777216 * b3) :: leWords rest
  | _ => []

/-- MD5 padding: append `0x80`, zeros to 56 mod 64, then the bit length as
eight little-endian bytes. -/
def md5Pad (msg : List Nat) : List Nat :=
  let z := (msg.length + 1) % 64
  let padLen := (120 - z) % 64
  let bitLen := (msg.length * 8) % 18446744073709551616
  msg ++ [128] ++ List.replicate padLen 0 ++
    ((List.range 8).map (fun i => (bitLen >>> (8 * i)) &&& 255))

/-- MD5 digest of a byte list, as 16 bytes. -/
def md5Bytes (msg : List Nat) : List Nat :=
  let padded := md5Pad msg
  let blocks := (takeBlocks (padded.length / 64) padded).map leWords
  let st := blocks.foldl md5Block (1732584193, 4023233417, 2562383102, 271733878)
  let word (w : Nat) : List Nat :=
    [w &&& 255, (w >>> 8) &&& 255, (w >>> 16) &&& 255, (w >>> 24) &&& 255]
  word st.1 ++ word st.2.1 ++ word st.2.2.1 ++ word st.2.2.2

def hexDigit (n : Nat) : Char :=
  if n < 10 then Char.ofNat (48 + n) else Char.ofNat (87 + n)

/-- Lowercase hexadecimal rendering of a byte list, the `.hexdigest()` format. -/
def hexString (bytes : List Nat) : String :=
  String.mk ((bytes.map (fun b => [hexDigit (b / 16), hexDigit (b % 16)])).flatten)

/-- UTF-8 encoding of one character (the Python `str.encode()` used in
generate_job_id). -/
def utf8Bytes (c : Char) : List Nat :=
  let n := c.toNat
  if n < 128 then [n]
  else if n < 2048 then [192 ||| (n >>> 6), 128 ||| (n &&& 63)]
  else if n < 65536 then
    [224 ||| (n >>> 12), 128 ||| ((n >>> 6) &&& 63), 128 ||| (n &&& 63)]
  else
    [240 ||| (n >>> 18), 128 ||| ((n >>> 12) &&& 63),
     128 ||| ((n >>> 6) &&& 63), 128 ||| (n &&& 63)]

/-- Bytes of a string under UTF-8, Python `s.encode()`. -/
def strBytes (s : String) : List Nat :=
  (s.toList.map utf8Bytes).flatten

/-! ## generate_job_id (src/job_monitor.py lines 58-61)

`unique_string = f"{title}|{company}|{url}"`;
`return hashlib.md5(unique_string.encode()).hexdigest()`. -/

def generateJobId (title company url : String) : String :=
  hexString (md5Bytes (strBytes (title ++ "|" ++ company ++ "|" ++ url)))

/-! ## Job records and add_job_if_new (src/job_monitor.py lines 68-76)

A job_data dict always carries the keys title, company, location, url,
posted, source.  The mutable `self.seen_jobs` set and the per-site `jobs`
list are threaded explicitly; the function returns the Python return value
together with the updated list and set. -/

structure Job where
  title : String
  company : String
  location : String
  url : String
  posted : String
  srcSite : String
deriving DecidableEq, Repr

def addJobIfNew (job : Job) (seen : Finset String) (jobsList : List Job) :
    Bool × List Job × Finset String :=
  let jobId := generateJobId job.title job.company job.url
  if jobId ∈ seen then (false, jobsList, seen)
  else (true, jobsList ++ [job], insert jobId seen)

/-! ## JSON values and the seen-jobs file
(src/job_monitor.py lines 38-56)

`JVal` models what `json.load` can return.  `load_seen_jobs` runs
`set(json.load(f))` inside a try/except: `pySet` models Python's `set(...)`
on a JSON value, returning `none` where Python would raise (which the
`except` turns into the empty set).  The ids this program ever persists are
md5 hex strings, so the list case is modelled for string elements; a list
with a non-string element is outside the model and mapped to `none`. -/

inductive JVal where
  | jnull : JVal
  | jbool : Bool → JVal
  | jnum : Int → JVal
  | jstr : String → JVal
  | jarr : List JVal → JVal
  | jobj : List (String × JVal) → JVal

def asStr : JVal → Option String
  | .jstr s => some s
  | _ => none

/-- All-elements-are-strings view of a JSON list (`none` where Python's
`set(...)` would meet an element outside the model). -/
def allStrs : List JVal → Option (List String)
  | [] => some []
  | v :: rest =>
      match asStr v, allStrs rest with
      | some s, some ss => some (s :: ss)
      | _, _ => none

/-- Python `set(v)` on a decoded JSON value: a list of strings gives the set
of its elements, a dict gives its keys, a string gives its one-character
substrings; numbers, booleans and null are not iterable (TypeError). -/
def pySet : JVal → Option (Finset String)
  | .jarr xs =>
      match allStrs xs with
      | some ss => some ss.toFinset
      | none => none
  | .jobj kvs => some (kvs.map Prod.fst).toFinset
  | .jstr s => some (s.toList.map (fun c => String.mk [c])).toFinset
  | _ => none

/-- Possible outcomes of opening and decoding the seen-jobs file:
the file is absent, `open`/read raises, `json.load` raises on invalid JSON,
or a JSON value is decoded. -/
inductive LoadResult where
  | absent : LoadResult
  | unreadable : LoadResult
  | badJson : LoadResult
  | content : JVal → LoadResult

/-- load_seen_jobs: inside try/except, return `set(json.load(f))` when the
file exists, the empty set when it does not, and the empty set when
anything raises. -/
def loadSeenJobs : LoadResult → Finset String
  | .absent => ∅
  | .unreadable => ∅
  | .badJson => ∅
  | .content v => (pySet v).getD ∅

/-- Modelled from the spec: the Seen-Set as §3/§4.5 describe it, a
fingerprint → last-seen-timestamp mapping; loading a legacy bare list at
time `now` is said to assign `now` to every fingerprint.  This definition
exists only to be compared with the source's `loadSeenJobs`, whose state
carries no timestamps. -/
def loadSeenJobsSpec (xs : List String) (now : Nat) : List (String × Nat) :=
  xs.map (fun f => (f, now))

/-- save_seen_jobs: `json.dump(list(self.seen_jobs), f)` persists every
element of the seen set as a bare list (the set's iteration order is
arbitrary; it is modelled canonically as the sorted list, which carries the
same set of fingerprints). -/
def saveSeenJobs (seen : Finset String) : List String :=
  seen.sort (· ≤ ·)

/-! ## Per-site search and search_all_sites
(src/job_monitor.py lines 80-111 and 675-726)

Every `search_*` method has the same shape: inside a try/except, fetch the
page; on a non-200 status, a transport error, a JSON/parse error or any
other exception raised before candidates are processed, the method returns
no jobs and leaves the seen set unchanged; on success the external
extraction (BeautifulSoup selectors, the spec's extraction collaborator)
yields candidates, and each candidate whose match text passes
matches_keywords goes through add_job_if_new.  `SiteOutcome` supplies per
target what the network and extractor would produce; `matchText` is the
text the source matches keywords against (title plus tags for RemoteOK,
the title for the HTML sites). -/

structure Candidate where
  matchText : String
  job : Job
deriving DecidableEq, Repr

inductive SiteOutcome where
  | netError : SiteOutcome
  | badStatus : Nat → SiteOutcome
  | badPayload : SiteOutcome
  | ok : List Candidate → SiteOutcome
deriving DecidableEq, Repr

def SiteOutcome.isFailure : SiteOutcome → Bool
  | .ok _ => false
  | _ => true

/-- The per-candidate loop shared by every `search_*` method: keyword-match
the candidate's text, then add_job_if_new into the site's `jobs`
accumulator and the seen set. -/
def processCandidates (cands : List Candidate) (keywords : List String)
    (seen : Finset String) (acc : List Job) : List Job × Finset String :=
  match cands with
  | [] => (acc, seen)
  | c :: rest =>
      if matchesKeywords c.matchText keywords then
        let r := addJobIfNew c.job seen acc
        processCandidates rest keywords r.2.2 r.2.1
      else
        processCandidates rest keywords seen acc

/-- One `search_*` method: any failure caught by its try/except yields no
jobs; a successful fetch processes the extracted candidates. -/
def searchSite (o : SiteOutcome) (keywords : List String)
    (seen : Finset String) : List Job × Finset String :=
  match o with
  | .ok cands => processCandidates cands keywords seen []
  | _ => ([], seen)

/-- search_all_sites: run the sites in order, extending `all_jobs` with each
site's result; the source's fixed sequence of 16 method calls is the fold
of `searchSite` over the list of per-site outcomes. -/
def searchAllSites (outcomes : List SiteOutcome) (keywords : List String)
    (seen : Finset String) : List Job × Finset String :=
  match outcomes with
  | [] => ([], seen)
  | o :: rest =>
      let r := searchSite o keywords seen
      let rs := searchAllSites rest keywords r.2
      (r.1 ++ rs.1, rs.2)

/-! ## search_remoteok with its single network call
(src/job_monitor.py lines 80-111)

To count network attempts, the server is modelled as a queue of answers:
each `requests.get` consumes the next answer.  An answer is either a raised
transport error or a response with a status code and a decoded JSON body
(`none` models a body on which `response.json()` raises).  The method makes
exactly one `requests.get` call, so it consumes exactly one answer and
returns the rest of the queue. -/

inductive HttpAnswer where
  | raised : HttpAnswer
  | resp : Nat → Option JVal → HttpAnswer

def jlookup (kvs : List (String × JVal)) (k : String) : Option JVal :=
  (kvs.find? (fun p => p.1 == k)).map Prod.snd

/-- Python `job.get(k, dflt)` for a string field (fields of unexpected JSON
type are outside the model and mapped to the default). -/
def jGetStr (v : JVal) (k dflt : String) : String :=
  match v with
  | .jobj kvs =>
      match jlookup kvs k with
      | some (.jstr s) => s
      | _ => dflt
  | _ => dflt

/-- Python `' '.join(job.get('tags', []))` for a string-list field. -/
def jGetTags (v : JVal) : String :=
  match v with
  | .jobj kvs =>
      match jlookup kvs "tags" with
      | some (.jarr xs) => String.intercalate " " (xs.filterMap asStr)
      | _ => ""
  | _ => ""

def JVal.isObj : JVal → Bool
  | .jobj _ => true
  | _ => false

/-- The body of the RemoteOK candidate loop:
`data = response.json()[1:] if isinstance(response.json(), list) else []`,
then for each dict in `data[:50]`, match keywords against
`f"{title} {tags}"` and call add_job_if_new. -/
def remoteokLoop (data : List JVal) (keywords : List String)
    (seen : Finset String) (acc : List Job) : List Job × Finset String :=
  match data with
  | [] => (acc, seen)
  | j :: rest =>
      if j.isObj then
        let title := jGetStr j "position" ""
        let tags := jGetTags j
        if matchesKeywords (title ++ " " ++ tags) keywords then
          let jobData : Job :=
            { title := title
              company := jGetStr j "company" "N/A"
              location := jGetStr j "location" "Remote"
              url := "https://remoteok.com/remote-jobs/" ++ jGetStr j "slug" ""
              posted := jGetStr j "date" "Recent"
              srcSite := "RemoteOK" }
          let r := addJobIfNew jobData seen acc
          remoteokLoop rest keywords r.2.2 r.2.1
        else remoteokLoop rest keywords seen acc
      else remoteokLoop rest keywords seen acc

def remoteokData : JVal → List JVal
  | .jarr xs => xs.drop 1
  | _ => []

/-- search_remoteok: one `requests.get` (consuming one queue entry); on a
200 response with a decodable body, process the parsed list; on any other
status, a transport error or an undecodable body, the except/if yields no
jobs.  Returns (jobs, seen set, remaining server queue). -/
def searchRemoteok (queue : List HttpAnswer) (keywords : List String)
    (seen : Finset String) : List Job × Finset String × List HttpAnswer :=
  match queue with
  | [] => ([], seen, [])
  | a :: rest =>
      match a with
      | .raised => ([], seen, rest)
      | .resp status body =>
          if status == 200 then
            match body with
            | none => ([], seen, rest)
            | some v =>
                let r := remoteokLoop ((remoteokData v).take 50) keywords seen []
                (r.1, r.2, rest)
          else ([], seen, rest)

/-! ## Concrete records used in witnesses and counterexamples -/

/-- Record whose URL carries a utm_source tracking parameter. -/
def jobUtm : Job :=
  { title := "Backend Engineer", company := "Acme", location := "Remote",
    url := "https://acme.example/jobs/123?utm_source=newsletter",
    posted := "Recent", srcSite := "Test" }

/-- The same record with the tracking parameter stripped. -/
def jobPlain : Job :=
  { title := "Backend Engineer", company := "Acme", location := "Remote",
    url := "https://acme.example/jobs/123",
    posted := "Recent", srcSite := "Test" }

/-- Record with empty title and empty URL. -/
def emptyFieldsJob : Job :=
  { title := "", company := "X", location := "Remote", url := "",
    posted := "Recent", srcSite := "Test" }

/-- An ordinary well-formed record. -/
def sampleJob : Job :=
  { title := "Python Developer", company := "Acme", location := "Remote",
    url := "https://acme.example/jobs/9", posted := "Recent",
    srcSite := "Test" }

/-- A RemoteOK API body: the first element is the legal notice the code
skips with `[1:]`, the second is a matching job posting. -/
def remoteokPayload : JVal :=
  JVal.jarr
    [JVal.jobj [("legal", JVal.jstr "meta")],
     JVal.jobj [("position", JVal.jstr "Python Developer"),
                ("company", JVal.jstr "Acme"),
                ("slug", JVal.jstr "python-dev-1"),
                ("tags", JVal.jarr [])]]

/-- The record the payload above yields through the RemoteOK loop. -/
def pythonDevJob : Job :=
  { title := "Python Developer", company := "Acme", location := "Remote",
    url := "https://remoteok.com/remote-jobs/python-dev-1",
    posted := "Recent", srcSite := "RemoteOK" }

/-- A server that answers HTTP 503 twice and then HTTP 200 with a payload. -/
def answers503 : List HttpAnswer :=
  [HttpAnswer.resp 503 none, HttpAnswer.resp 503 none,
   HttpAnswer.resp 200 (some remoteokPayload)]

/-! ## Helper lemmas -/

theorem startsWith_iff (nd : List Char) : ∀ hay : List Char,
    startsWith hay nd = true ↔ ∃ rest, hay = nd ++ rest := by
  induction nd with
  | nil => intro hay; simp [startsWith]
  | cons n ns ih =>
      intro hay
      cases hay with
      | nil => simp [startsWith]
      | cons h t =>
          simp only [startsWith, Bool.and_eq_true, beq_iff_eq, ih]
          constructor
          · rintro ⟨rfl, rest, rfl⟩
            exact ⟨rest, rfl⟩
          · rintro ⟨rest, heq⟩
            rw [List.cons_append] at heq
            cases heq
            exact ⟨rfl, rest, rfl⟩

theorem containsSub_iff (nd : List Char) : ∀ hay : List Char,
    containsSub hay nd = true ↔ ∃ p s, hay = p ++ nd ++ s := by
  intro hay
  induction hay with
  | nil =>
      simp only [containsSub, startsWith_iff]
      constructor
      · rintro ⟨rest, heq⟩
        exact ⟨[], rest, heq⟩
      · rintro ⟨p, s, heq⟩
        rcases List.append_eq_nil.mp (heq.symm) with ⟨h1, h2⟩
        rcases List.append_eq_nil.mp h1 with ⟨rfl, rfl⟩
        exact ⟨s, h2.symm⟩
  | cons h t ih =>
      simp only [containsSub, Bool.or_eq_true, startsWith_iff, ih]
      constructor
      · rintro (⟨rest, heq⟩ | ⟨p, s, heq⟩)
        · exact ⟨[], rest, by simpa using heq⟩
        · exact ⟨h :: p, s, by simp [heq]⟩
      · rintro ⟨p, s, heq⟩
        cases p with
        | nil => exact Or.inl ⟨s, by simpa using heq⟩
        | cons a p' =>
            rw [List.cons_append, List.cons_append] at heq
            cases heq
            exact Or.inr ⟨p', s, by simp⟩

theorem allStrs_map_jstr (xs : List String) :
    allStrs (xs.map JVal.jstr) = some xs := by
  induction xs with
  | nil => rfl
  | cons x xs ih => simp [allStrs, asStr, ih]

theorem searchSite_failure (o : SiteOutcome) (kws : List String)
    (seen : Finset String) (h : o.isFailure = true) :
    searchSite o kws seen = ([], seen) := by
  cases o with
  | ok cands => simp [SiteOutcome.isFailure] at h
  | netError => rfl
  | badStatus n => rfl
  | badPayload => rfl

theorem addJobIfNew_seen_mono (j : Job) (seen : Finset String) (l : List Job) :
    seen ⊆ (addJobIfNew j seen l).2.2 := by
  by_cases h : generateJobId j.title j.company j.url ∈ seen
  · simp [addJobIfNew, h]
  · simp only [addJobIfNew, h, if_false]
    exact Finset.subset_insert _ _

theorem processCandidates_seen_mono (cands : List Candidate)
    (kws : List String) : ∀ (seen : Finset String) (acc : List Job),
    seen ⊆ (processCandidates cands kws seen acc).2 := by
  induction cands with
  | nil => intro seen acc; exact Finset.Subset.refl _
  | cons c rest ih =>
      intro seen acc
      unfold processCandidates
      split
      · exact (addJobIfNew_seen_mono c.job seen acc).trans (ih _ _)
      · exact ih _ _

theorem searchSite_seen_mono (o : SiteOutcome) (kws : List String)
    (seen : Finset String) : seen ⊆ (searchSite o kws seen).2 := by
  cases o with
  | ok cands => exact processCandidates_seen_mono cands kws seen []
  | netError => exact Finset.Subset.refl _
  | badStatus n => exact Finset.Subset.refl _
  | badPayload => exact Finset.Subset.refl _

theorem searchAllSites_seen_mono (outcomes : List SiteOutcome)
    (kws : List String) : ∀ seen : Finset String,
    seen ⊆ (searchAllSites outcomes kws seen).2 := by
  induction outcomes with
  | nil => intro seen; exact Finset.Subset.refl _
  | cons o rest ih =>
      intro seen
      exact (searchSite_seen_mono o kws seen).trans (ih _)

/-! ## Claims -/

/-- C1 counterexample: the claim requires that keyword "go" does not match
the title "Going Remote"; matches_keywords does match it (naive substring). -/
theorem c1_counterexample : ¬ (matchesKeywords "Going Remote" ["go"] = false) := by
  decide

/-- C1 (amended): keyword relevance in matches_keywords is a case-insensitive
naive substring test, not word-boundary anchored: a title matches iff some
configured keyword occurs, case-insensitively, as a contiguous substring of
the title; in particular "go" matches "Go Developer" and also matches
"Going Remote". -/
theorem c1_matches_keywords_substring :
    (∀ (text : String) (keywords : List String),
        matchesKeywords text keywords = true ↔
          ∃ kw ∈ keywords, ∃ p s,
            (pyLower text).toList = p ++ (pyLower kw).toList ++ s)
    ∧ matchesKeywords "Go Developer" ["go"] = true
    ∧ matchesKeywords "Going Remote" ["go"] = true := by
  refine ⟨?_, by decide, by decide⟩
  intro text keywords
  simp only [matchesKeywords, List.any_eq_true, containsSub_iff]

/-- C2 counterexample: two records with the same title and company whose
URLs differ only by a utm_source tracking parameter get different
fingerprints, and processing them in sequence from an empty seen-set
accepts the second one as well, contradicting the claim. -/
theorem c2_counterexample :
    generateJobId "Backend Engineer" "Acme"
        "https://acme.example/jobs/123?utm_source=newsletter" ≠
      generateJobId "Backend Engineer" "Acme" "https://acme.example/jobs/123"
    ∧ (addJobIfNew jobPlain (addJobIfNew jobUtm ∅ []).2.2
        (addJobIfNew jobUtm ∅ []).2.1).1 = true := by
  constructor
  · decide
  · decide

/-- C2 (amended): generate_job_id performs no URL normalization: the
fingerprint hashes the raw title|company|url string, so two records whose
fingerprints differ (as they do when URLs differ in tracking parameters)
are both accepted as new when neither fingerprint is in the seen-set. -/
theorem c2_no_url_normalization :
    ∀ (j1 j2 : Job) (seen : Finset String) (l : List Job),
      generateJobId j1.title j1.company j1.url ∉ seen →
      generateJobId j2.title j2.company j2.url ∉ seen →
      generateJobId j1.title j1.company j1.url ≠
        generateJobId j2.title j2.company j2.url →
      (addJobIfNew j1 seen l).1 = true ∧
        (addJobIfNew j2 (addJobIfNew j1 seen l).2.2
          (addJobIfNew j1 seen l).2.1).1 = true := by
  intro j1 j2 seen l h1 h2 hne
  constructor
  · simp [addJobIfNew, h1]
  · simp [addJobIfNew, h1, Finset.mem_insert, h2, Ne.symm hne]

/-- C2 witness: the amended theorem applied to the two concrete records
differing only in a tracking parameter. -/
theorem c2_no_url_normalization_witness :
    (addJobIfNew jobUtm ∅ []).1 = true ∧
      (addJobIfNew jobPlain (addJobIfNew jobUtm ∅ []).2.2
        (addJobIfNew jobUtm ∅ []).2.1).1 = true :=
  c2_no_url_normalization jobUtm jobPlain ∅ []
    (by decide) (by decide) (by decide)

/-- C3 counterexample: changing only the letter case of the title changes
the fingerprint, contradicting case-insensitivity of generate_job_id. -/
theorem c3_counterexample :
    ¬ (generateJobId "Python Dev" "Acme" "https://x.example/j" =
        generateJobId "python dev" "Acme" "https://x.example/j") := by
  decide

/-- C3 (amended): the fingerprint is deterministic (equal raw inputs give
equal fingerprints) but case-SENSITIVE: changing only the letter case of
the title, or of the company, yields a different fingerprint at the
concrete inputs below. -/
theorem c3_deterministic_case_sensitive :
    (∀ t c u t' c' u', t = t' → c = c' → u = u' →
        generateJobId t c u = generateJobId t' c' u')
    ∧ generateJobId "Python Dev" "Acme" "https://x.example/j" ≠
        generateJobId "python dev" "Acme" "https://x.example/j"
    ∧ generateJobId "Dev" "ACME" "https://x.example/j" ≠
        generateJobId "Dev" "acme" "https://x.example/j" := by
  refine ⟨?_, by decide, by decide⟩
  rintro t c u t' c' u' rfl rfl rfl
  rfl

/-- C3 witness: determinism instantiated at a concrete record. -/
theorem c3_deterministic_case_sensitive_witness :
    generateJobId "Python Dev" "Acme" "https://x.example/j" =
      generateJobId "Python Dev" "Acme" "https://x.example/j" :=
  c3_deterministic_case_sensitive.1 _ _ _ _ _ _ rfl rfl rfl

/-- C4: failures are contained per target: a run in which every target
fails returns the empty job list and leaves the seen-set unchanged, and a
failing target anywhere in the sequence has no effect at all on the run's
result for the other targets. -/
theorem c4_failure_containment :
    (∀ (outcomes : List SiteOutcome) (kws : List String) (seen : Finset String),
        (∀ o ∈ outcomes, o.isFailure = true) →
        searchAllSites outcomes kws seen = ([], seen))
    ∧ (∀ (pre post : List SiteOutcome) (o : SiteOutcome) (kws : List String)
        (seen : Finset String), o.isFailure = true →
        searchAllSites (pre ++ o :: post) kws seen =
          searchAllSites (pre ++ post) kws seen) := by
  constructor
  · intro outcomes kws seen
    induction outcomes with
    | nil => intro _; rfl
    | cons o rest ih =>
        intro h
        have ho := h o (List.mem_cons_self o rest)
        have hrest := ih (fun x hx => h x (List.mem_cons_of_mem o hx))
        simp only [searchAllSites]
        rw [searchSite_failure o kws seen ho]
        simp [hrest]
  · intro pre post o kws seen ho
    induction pre generalizing seen with
    | nil =>
        simp only [List.nil_append, searchAllSites]
        rw [searchSite_failure o kws seen ho]
        simp
    | cons a pre' ih =>
        simp only [List.cons_append, searchAllSites, List.append_eq]
        rw [ih]

/-- C4 witness: a run whose three targets fail in three different ways
returns no jobs and an unchanged seen-set. -/
theorem c4_failure_containment_witness :
    searchAllSites [SiteOutcome.netError, SiteOutcome.badStatus 500,
        SiteOutcome.badPayload] ["python"] ∅ = ([], ∅) :=
  c4_failure_containment.1 _ _ _ (by decide)

/-- C5 counterexample: with the spec's maximum size instantiated at N = 2
and three live entries, the claim requires the persisted seen-set to hold
min 2 3 = 2 entries; save_seen_jobs persists all 3 (it never prunes). -/
theorem c5_counterexample :
    (saveSeenJobs ({"a", "b", "c"} : Finset String)).length = 3 ∧
      (3 : Nat) ≠ min 2 3 := by
  refine ⟨?_, by decide⟩
  unfold saveSeenJobs
  rw [Finset.length_sort]
  decide

/-- C5 (amended): save_seen_jobs persists the entire current seen-set
unchanged: there is no TTL drop and no size cap; the persisted list carries
exactly the seen fingerprints, one entry per fingerprint. -/
theorem c5_save_persists_everything :
    ∀ seen : Finset String,
      (saveSeenJobs seen).toFinset = seen ∧
        (saveSeenJobs seen).length = seen.card := by
  intro seen
  exact ⟨Finset.sort_toFinset _ _, Finset.length_sort _⟩

/-- C6 (amended): there is no retry and no backoff: search_remoteok makes
exactly one network attempt per run (it consumes exactly one server
answer), and when that answer is not an HTTP 200 response the target
produces no jobs. -/
theorem c6_single_attempt :
    ∀ (a : HttpAnswer) (rest : List HttpAnswer) (kws : List String)
      (seen : Finset String),
      (searchRemoteok (a :: rest) kws seen).2.2 = rest ∧
        (∀ status body, a = HttpAnswer.resp status body → status ≠ 200 →
          (searchRemoteok (a :: rest) kws seen).1 = []) ∧
        (a = HttpAnswer.raised → (searchRemoteok (a :: rest) kws seen).1 = []) := by
  intro a rest kws seen
  refine ⟨?_, ?_, ?_⟩
  · cases a with
    | raised => rfl
    | resp status body =>
        cases body with
        | none => simp only [searchRemoteok]; split <;> rfl
        | some v => simp only [searchRemoteok]; split <;> rfl
  · rintro status body rfl h200
    have hb : (status == 200) = false := beq_eq_false_iff_ne.mpr h200
    cases body with
    | none => simp [searchRemoteok, hb]
    | some v => simp [searchRemoteok, hb]
  · rintro rfl
    rfl

/-- C6 witness: against a server answering 503, 503, then 200, the code
consumes only the first answer and returns no jobs. -/
theorem c6_single_attempt_witness :
    (searchRemoteok answers503 ["python"] ∅).2.2 =
        [HttpAnswer.resp 503 none, HttpAnswer.resp 200 (some remoteokPayload)] ∧
      (searchRemoteok answers503 ["python"] ∅).1 = [] :=
  ⟨(c6_single_attempt (HttpAnswer.resp 503 none)
      [HttpAnswer.resp 503 none, HttpAnswer.resp 200 (some remoteokPayload)]
      ["python"] ∅).1,
   (c6_single_attempt (HttpAnswer.resp 503 none)
      [HttpAnswer.resp 503 none, HttpAnswer.resp 200 (some remoteokPayload)]
      ["python"] ∅).2.1 503 none rfl (by decide)⟩

/-- C6 counterexample: with a server answering 503 twice then 200, the
claim requires exactly 3 network attempts returning the final 200 payload;
the code leaves 2 of the 3 answers unconsumed (one attempt) and returns no
jobs, even though the 200 payload does contain a matching posting (last
conjunct: fetching it directly yields that job). -/
theorem c6_counterexample :
    (searchRemoteok answers503 ["python"] ∅).2.2.length = 2 ∧
      (searchRemoteok answers503 ["python"] ∅).1 = [] ∧
      (searchRemoteok [HttpAnswer.resp 200 (some remoteokPayload)]
          ["python"] ∅).1 = [pythonDevJob] := by
  refine ⟨rfl, rfl, ?_⟩
  decide

/-- C7 counterexample: a record with empty title AND empty URL is accepted
by add_job_if_new: it returns True, appends the record to the output list,
and adds its fingerprint to the seen-set — the pipeline performs no
emptiness check. -/
theorem c7_counterexample :
    (addJobIfNew emptyFieldsJob ∅ []).1 = true ∧
      (addJobIfNew emptyFieldsJob ∅ []).2.1 = [emptyFieldsJob] ∧
      (addJobIfNew emptyFieldsJob ∅ []).2.2 ≠ ∅ := by
  refine ⟨by decide, by decide, by decide⟩

/-- C7 (amended): the record pipeline performs no emptiness validation:
even a candidate whose title and URL are both empty is accepted — added to
the output list and to the seen-set — whenever its fingerprint is not
already seen; the only rejection criterion is fingerprint membership. -/
theorem c7_no_empty_validation :
    ∀ (j : Job) (seen : Finset String) (l : List Job),
      j.title = "" → j.url = "" →
      generateJobId j.title j.company j.url ∉ seen →
      (addJobIfNew j seen l).1 = true ∧
        (addJobIfNew j seen l).2.1 = l ++ [j] ∧
        generateJobId j.title j.company j.url ∈ (addJobIfNew j seen l).2.2 := by
  intro j seen l _ _ hmem
  refine ⟨?_, ?_, ?_⟩ <;> simp [addJobIfNew, hmem]

/-- C7 witness: the amended theorem applied to the concrete record with
empty title and URL against the empty seen-set. -/
theorem c7_no_empty_validation_witness :
    (addJobIfNew emptyFieldsJob ∅ []).1 = true ∧
      (addJobIfNew emptyFieldsJob ∅ []).2.1 = [] ++ [emptyFieldsJob] ∧
      generateJobId emptyFieldsJob.title emptyFieldsJob.company
          emptyFieldsJob.url ∈ (addJobIfNew emptyFieldsJob ∅ []).2.2 :=
  c7_no_empty_validation emptyFieldsJob ∅ [] rfl rfl (by decide)

/-- C8 counterexample: the claim says each fingerprint of a legacy bare
list is loaded "with the current time as its last-seen timestamp"; but the
state load_seen_jobs produces is a bare set of strings computed from the
file alone, so no reading of it can yield the spec's timestamped mapping —
loading ["a"] at time 0 and at time 1 gives the same state, while the spec
mapping differs. -/
theorem c8_counterexample :
    ¬ ∃ g : Finset String → List (String × Nat),
        ∀ (xs : List String) (now : Nat),
          g (loadSeenJobs (LoadResult.content (JVal.jarr (xs.map JVal.jstr)))) =
            loadSeenJobsSpec xs now := by
  rintro ⟨g, hg⟩
  have h0 := hg ["a"] 0
  have h1 := hg ["a"] 1
  exact absurd (h0.symm.trans h1) (by decide)

/-- C8 (amended): the legacy bare list of fingerprints is accepted on load:
every fingerprint in it becomes a member of the seen-set; no last-seen
timestamp is recorded (the seen-set is a plain set of fingerprints,
independent of the current time). -/
theorem c8_legacy_list_loaded :
    ∀ xs : List String,
      loadSeenJobs (LoadResult.content (JVal.jarr (xs.map JVal.jstr))) =
        xs.toFinset := by
  intro xs
  simp [loadSeenJobs, pySet, allStrs_map_jstr]

/-- C9: load_seen_jobs never raises: when the file is absent, unreadable,
or holds invalid JSON, it returns the empty set, and against that empty
seen-set any record is accepted as new again (previously reported records
become reportable). -/
theorem c9_load_never_raises :
    ∀ r : LoadResult,
      (r = LoadResult.absent ∨ r = LoadResult.unreadable ∨
        r = LoadResult.badJson) →
      loadSeenJobs r = ∅ ∧
        ∀ (j : Job) (l : List Job), (addJobIfNew j (loadSeenJobs r) l).1 = true := by
  rintro r (rfl | rfl | rfl) <;>
    exact ⟨rfl, fun j l => by simp [loadSeenJobs, addJobIfNew]⟩

/-- C9 witness: the invalid-JSON outcome yields the empty seen-set, and a
concrete record is then accepted as new. -/
theorem c9_load_never_raises_witness :
    loadSeenJobs LoadResult.badJson = ∅ ∧
      (addJobIfNew sampleJob (loadSeenJobs LoadResult.badJson) []).1 = true :=
  ⟨(c9_load_never_raises _ (Or.inr (Or.inr rfl))).1,
   (c9_load_never_raises _ (Or.inr (Or.inr rfl))).2 sampleJob []⟩

/-- C10: add_job_if_new returns True exactly when the record's fingerprint
is absent from the seen-set; when it returns True the record is appended,
when it returns False the output list is unchanged; after every call the
fingerprint is in the seen-set; the seen-set only grows — both across one
call and across a whole search_all_sites run. -/
theorem c10_add_job_if_new_invariants :
    (∀ (j : Job) (seen : Finset String) (l : List Job),
        ((addJobIfNew j seen l).1 = true ↔
          generateJobId j.title j.company j.url ∉ seen) ∧
        ((addJobIfNew j seen l).1 = true →
          (addJobIfNew j seen l).2.1 = l ++ [j]) ∧
        ((addJobIfNew j seen l).1 = false →
          (addJobIfNew j seen l).2.1 = l) ∧
        generateJobId j.title j.company j.url ∈ (addJobIfNew j seen l).2.2 ∧
        seen ⊆ (addJobIfNew j seen l).2.2)
    ∧ (∀ (outcomes : List SiteOutcome) (kws : List String)
        (seen : Finset String), seen ⊆ (searchAllSites outcomes kws seen).2) := by
  constructor
  · intro j seen l
    by_cases h : generateJobId j.title j.company j.url ∈ seen
    · exact ⟨by simp [addJobIfNew, h], by simp [addJobIfNew, h],
        by simp [addJobIfNew, h], by simp [addJobIfNew, h],
        by simp [addJobIfNew, h]⟩
    · exact ⟨by simp [addJobIfNew, h], by simp [addJobIfNew, h],
        by simp [addJobIfNew, h], by simp [addJobIfNew, h],
        by simp only [addJobIfNew, h, if_false]; exact Finset.subset_insert _ _⟩
  · intro outcomes kws seen
    exact searchAllSites_seen_mono outcomes kws seen

/-- C10 witness: the invariants instantiated at a concrete record against
the empty seen-set, and run monotonicity at a concrete one-site run. -/
theorem c10_add_job_if_new_invariants_witness :
    (addJobIfNew sampleJob ∅ []).2.1 = [] ++ [sampleJob] ∧
      generateJobId sampleJob.title sampleJob.company sampleJob.url ∈
        (addJobIfNew sampleJob ∅ []).2.2 ∧
      (∅ : Finset String) ⊆ (searchAllSites [SiteOutcome.ok []] ["x"] ∅).2 := by
  have h := c10_add_job_if_new_invariants.1 sampleJob ∅ []
  exact ⟨h.2.1 (h.1.mpr (by simp)), h.2.2.2.1,
    c10_add_job_if_new_invariants.2 [SiteOutcome.ok []] ["x"] ∅⟩
